import Mathlib

/-!
# Huge-page provisioning and allocation with fallback (`virtual_memory.c`)

A shallow embedding of `virtual_memory.c`.  The operating system and the C
library are oracles: every call the program makes to them receives its answer
from a record of outcomes, and every call (with its arguments and its answer)
and every `applog` line is appended to a trace of events.  Pointers are
64-bit addresses, `NULL` is address `0` and `MAP_FAILED` is `(void *)-1`.
The two build variants (`__MINGW32__` and the `#else` branch, the latter with
its `__FreeBSD__` sub-variant) are kept apart in the namespaces `Windows` and
`Linux`; the shared `AllocateMemory` selects between them by `Target`.
-/

namespace VirtualMemory

/-! ## Common vocabulary -/

/-- A `void *`: a 64-bit address. -/
abbrev Ptr := Nat

/-- The null pointer. -/
def NULL : Ptr := 0

/-- The failure value of `mmap`: `(void *)-1`. -/
def MAP_FAILED : Ptr := 2 ^ 64 - 1

/-- Severities of the log sink `applog` (the syslog levels). -/
inductive Severity where
  | LOG_ERR
  | LOG_WARNING
  | LOG_NOTICE
  | LOG_INFO
  | LOG_DEBUG
  deriving DecidableEq, Repr

/-- Flags passed to `mmap` by `AllocateLargePagesMemory`. -/
inductive MapFlag where
  | MAP_PRIVATE
  | MAP_ANONYMOUS
  | MAP_HUGETLB
  | MAP_POPULATE
  | MAP_HUGE_2MB
  | MAP_ALIGNED_SUPER
  | MAP_PREFAULT_READ
  deriving DecidableEq, Repr

/-- Allocation types passed to `VirtualAlloc`. -/
inductive AllocType where
  | MEM_COMMIT
  | MEM_RESERVE
  | MEM_LARGE_PAGES
  deriving DecidableEq, Repr

/-- The two kernel pseudo-files of node 0, 2048 kB huge pages. -/
inductive HpPath where
  | free_hugepages
  | nr_hugepages
  deriving DecidableEq, Repr

/-- One observable step of a call: a log line, or a request together with the
answer it received. -/
inductive Event where
  | applog (sev : Severity) (msg : String)
  | mmap (len : Nat) (flags : List MapFlag) (fd : Int) (res : Ptr)
  | VirtualAlloc (size : Nat) (flags : List AllocType) (res : Ptr)
  | GetLargePageMinimum (res : Nat)
  | malloc (size : Nat) (res : Ptr)
  | read_hp (path : HpPath) (res : Int)
  | write_hp (path : HpPath) (value : Nat) (res : Bool)
  | SetLockPagesPrivilege (res : Bool)
  | ObtainLockPagesPrivilege (res : Bool)
  deriving DecidableEq, Repr

/-- The event is a log line of the given severity. -/
def Event.isLog (sev : Severity) : Event → Bool
  | .applog s _ => decide (s = sev)
  | _ => false

/-- The event is a log line of notice or warning severity. -/
def Event.isAdvisoryLog (e : Event) : Bool :=
  e.isLog .LOG_NOTICE || e.isLog .LOG_WARNING

/-- The event is a memory request (a mapping or a heap allocation). -/
def Event.isRequest : Event → Bool
  | .mmap _ _ _ _ => true
  | .VirtualAlloc _ _ _ => true
  | .malloc _ _ => true
  | _ => false

/-- Length carried by a memory request. -/
def Event.requestLen : Event → Option Nat
  | .mmap len _ _ _ => some len
  | .VirtualAlloc size _ _ => some size
  | .malloc size _ => some size
  | _ => none

/-- Answer received by a memory request. -/
def Event.requestRes : Event → Option Ptr
  | .mmap _ _ _ res => some res
  | .VirtualAlloc _ _ res => some res
  | .malloc _ res => some res
  | _ => none

/-- The event touches the given huge-page pseudo-file. -/
def Event.touches (p : HpPath) : Event → Bool
  | .read_hp q _ => decide (q = p)
  | .write_hp q _ _ => decide (q = p)
  | _ => false

/-- The event is a call of `write_hp`. -/
def Event.isWrite : Event → Bool
  | .write_hp _ _ _ => true
  | _ => false

/-- The event is a call of `SetLockPagesPrivilege`. -/
def Event.isEnable : Event → Bool
  | .SetLockPagesPrivilege _ => true
  | _ => false

/-- The event is a call of `ObtainLockPagesPrivilege`. -/
def Event.isGrant : Event → Bool
  | .ObtainLockPagesPrivilege _ => true
  | _ => false

/-- Result carried by a `SetLockPagesPrivilege` call event. -/
def Event.enableResult : Event → Option Bool
  | .SetLockPagesPrivilege b => some b
  | _ => none

/-- Result of the last `SetLockPagesPrivilege` call recorded in a trace. -/
def lastEnable (es : List Event) : Option Bool :=
  (es.filterMap Event.enableResult).getLast?

/-- Conversion of an unsigned value to `int` (32 bits, two's complement). -/
def toInt32 (v : Nat) : Int :=
  if v % 2 ^ 32 < 2 ^ 31 then ((v % 2 ^ 32 : Nat) : Int)
  else ((v % 2 ^ 32 : Nat) : Int) - 2 ^ 32

/-- Reduction of an integer expression to `size_t` / `uint64_t`. -/
def toSizeT (x : Int) : Nat := (x % 2 ^ 64).toNat

/-! ## Windows variant (`__MINGW32__`) -/

namespace Windows

/-- `ERROR_SUCCESS`. -/
def ERROR_SUCCESS : Nat := 0

/-- Answers of the token API during one call of `SetLockPagesPrivilege`. -/
structure EnableOutcome where
  OpenProcessToken : Bool
  LookupPrivilegeValue : Bool
  AdjustTokenPrivileges : Bool
  GetLastError : Nat
  deriving DecidableEq, Repr

/-- Answers of the token and LSA API during `ObtainLockPagesPrivilege`. -/
structure GrantOutcome where
  OpenProcessToken : Bool
  size : Nat
  LocalAlloc : Ptr
  LsaOpenPolicy : Nat
  LsaAddAccountRights : Nat
  deriving DecidableEq, Repr

/-- The privilege side of the OS: `enable n` holds the answers met by the
`n`-th call of `SetLockPagesPrivilege` (counted from 0), `grant` those met by
`ObtainLockPagesPrivilege`. -/
structure PrivilegeOS where
  enable : Nat → EnableOutcome
  grant : GrantOutcome

/-- `SetLockPagesPrivilege`: result and the log lines written. -/
def SetLockPagesPrivilege (o : EnableOutcome) : Bool × List Event :=
  if !o.OpenProcessToken then
    (false, [.applog .LOG_NOTICE "Huge Pages: Failed to open process token."])
  else if !o.LookupPrivilegeValue then
    (false, [.applog .LOG_NOTICE "Huge Pages: Failed to lookup privilege table."])
  else if !o.AdjustTokenPrivileges || o.GetLastError != ERROR_SUCCESS then
    (false, [.applog .LOG_NOTICE "Huge Pages: Failed to adjust privelege token."])
  else
    (true, [])

/-- `ObtainLockPagesPrivilege`: result and the log lines written. -/
def ObtainLockPagesPrivilege (o : GrantOutcome) : Bool × List Event :=
  let user : Ptr :=
    if o.OpenProcessToken then (if o.size != 0 then o.LocalAlloc else NULL) else NULL
  if user == NULL then
    (false, [.applog .LOG_NOTICE "Huge Pages: Failed token query."])
  else if o.LsaOpenPolicy == 0 then
    if o.LsaAddAccountRights == 0 then
      (true, [.applog .LOG_NOTICE "LSA: '%s'",
              .applog .LOG_NOTICE
                "Huge pages support was successfully enabled, but reboot is required to use it"])
    else
      (false, [.applog .LOG_NOTICE "LSA: '%s'",
               .applog .LOG_NOTICE "Huge pages: Failed to add account rights %lu"])
  else
    (false, [])

/-- `TrySetLockPagesPrivilege`: each call of the two helpers is recorded, after
the lines it logged, with its result. -/
def TrySetLockPagesPrivilege (os : PrivilegeOS) : Bool × List Event :=
  let s1 := SetLockPagesPrivilege (os.enable 0)
  let t1 := s1.2 ++ [.SetLockPagesPrivilege s1.1]
  if s1.1 then (true, t1)
  else
    let g := ObtainLockPagesPrivilege os.grant
    let t2 := t1 ++ g.2 ++ [.ObtainLockPagesPrivilege g.1]
    if !g.1 then (false, t2)
    else
      let s2 := SetLockPagesPrivilege (os.enable 1)
      (s2.1, t2 ++ s2.2 ++ [.SetLockPagesPrivilege s2.1])

/-- `InitHugePages` of the Windows variant. -/
def InitHugePages (os : PrivilegeOS) (threads : Nat) : Bool × List Event :=
  let _ := threads
  TrySetLockPagesPrivilege os

end Windows

/-! ## Linux / FreeBSD variant -/

namespace Linux

/-- One kernel pseudo-file as `read_hp` and `write_hp` meet it: the number
left in the `uint64_t` by `fscanf("%lu")` (0 when nothing is converted),
whether `fopen` succeeds for reading and for writing, and whether `ferror`
reports an error after the read and after the write. -/
structure HpFile where
  value : Nat
  rOpen : Bool
  rErr : Bool
  wOpen : Bool
  wErr : Bool
  deriving DecidableEq, Repr

/-- The two pseudo-files. -/
structure SysFs where
  free_hugepages : HpFile
  nr_hugepages : HpFile
  deriving DecidableEq, Repr

/-- File behind a path. -/
def SysFs.file (fs : SysFs) : HpPath → HpFile
  | .free_hugepages => fs.free_hugepages
  | .nr_hugepages => fs.nr_hugepages

/-- State after `fprintf(fd, "%lu", value)` on the file behind a path. -/
def SysFs.store (fs : SysFs) (p : HpPath) (value : Nat) : SysFs :=
  match p with
  | .free_hugepages => { fs with free_hugepages := { fs.free_hugepages with value := value } }
  | .nr_hugepages => { fs with nr_hugepages := { fs.nr_hugepages with value := value } }

/-- `read_hp`: `-1` when the file cannot be opened, `-2` on a stream error,
otherwise the `uint64_t` read, converted to `int`. -/
def read_hp (fs : SysFs) (path : HpPath) : Int :=
  let f := fs.file path
  if !f.rOpen then -1
  else
    let value : Nat := f.value % 2 ^ 64
    if f.rErr then -2
    else toInt32 value

/-- `write_hp`: result and the file system after the call. -/
def write_hp (fs : SysFs) (path : HpPath) (value : Nat) : Bool × SysFs :=
  let f := fs.file path
  if !f.wOpen then (false, fs)
  else
    let fs1 := fs.store path (value % 2 ^ 64)
    if f.wErr then (false, fs1)
    else (true, fs1)

/-- Outcome of `InitHugePages`: returned value, file system afterwards, trace. -/
structure InitResult where
  ret : Bool
  fs : SysFs
  events : List Event
  deriving DecidableEq, Repr

/-- `InitHugePages` of the Linux variant; `threads` is a `size_t`. -/
def InitHugePages (fs : SysFs) (threads : Nat) : InitResult :=
  let available_pages : Int := read_hp fs .free_hugepages
  let t0 : List Event := [.read_hp .free_hugepages available_pages]
  if available_pages < 0 then ⟨false, fs, t0⟩
  else if available_pages ≥ toInt32 threads then ⟨true, fs, t0⟩
  else
    let set_pages : Int := read_hp fs .nr_hugepages
    let t1 := t0 ++ [.read_hp .nr_hugepages set_pages]
    let set_pages : Int := if set_pages < 0 then 0 else set_pages
    let value : Nat := toSizeT (set_pages + ((threads % 2 ^ 64 : Nat) : Int) - available_pages)
    let w := write_hp fs .nr_hugepages value
    ⟨w.1, w.2, t1 ++ [.write_hp .nr_hugepages value w.1]⟩

end Linux

/-! ## Allocation with fallback -/

/-- Build target: `__MINGW32__`, `__FreeBSD__`, or the remaining default. -/
inductive Target where
  | mingw32
  | freebsd
  | linux
  deriving DecidableEq, Repr

/-- The memory side of the OS and of the C library: the answer to each request
as a function of its arguments. -/
structure OS where
  mmap : Nat → List MapFlag → Int → Ptr
  VirtualAlloc : Nat → List AllocType → Ptr
  GetLargePageMinimum : Nat
  malloc : Nat → Ptr

/-- Flags of the huge-page `mmap` request. -/
def hugeFlags (freebsd : Bool) : List MapFlag :=
  if freebsd then [.MAP_PRIVATE, .MAP_ANONYMOUS, .MAP_ALIGNED_SUPER, .MAP_PREFAULT_READ]
  else [.MAP_PRIVATE, .MAP_ANONYMOUS, .MAP_HUGETLB, .MAP_POPULATE, .MAP_HUGE_2MB]

/-- File descriptor of the huge-page `mmap` request. -/
def hugeFd (freebsd : Bool) : Int := if freebsd then -1 else 0

/-- Flags of the plain retry. -/
def plainFlags : List MapFlag := [.MAP_PRIVATE, .MAP_ANONYMOUS]

/-- `AllocateLargePagesMemory` of the Windows variant. -/
def Windows.AllocateLargePagesMemory (os : OS) (size : Nat) : Ptr × List Event :=
  let min := os.GetLargePageMinimum
  let t0 : List Event := [.GetLargePageMinimum min]
  if min > 0 then
    let mem := os.VirtualAlloc size [.MEM_COMMIT, .MEM_RESERVE, .MEM_LARGE_PAGES]
    (mem, t0 ++ [.VirtualAlloc size [.MEM_COMMIT, .MEM_RESERVE, .MEM_LARGE_PAGES] mem])
  else
    let mem := os.VirtualAlloc size [.MEM_COMMIT, .MEM_RESERVE]
    (mem, t0 ++ [.VirtualAlloc size [.MEM_COMMIT, .MEM_RESERVE] mem])

/-- `AllocateLargePagesMemory` of the Linux variant (`freebsd` selects the
`__FreeBSD__` flags); `huge_pages` is the global configuration flag. -/
def Linux.AllocateLargePagesMemory (freebsd : Bool) (os : OS) (huge_pages : Bool)
    (size : Nat) : Ptr × List Event :=
  let mem := os.mmap size (hugeFlags freebsd) (hugeFd freebsd)
  let t0 : List Event := [.mmap size (hugeFlags freebsd) (hugeFd freebsd) mem]
  if mem == MAP_FAILED then
    let t1 := if huge_pages then
        t0 ++ [.applog .LOG_ERR "Huge Pages allocation failed. Run with root privileges."]
      else t0
    let mem := os.mmap size plainFlags (-1)
    let t2 := t1 ++ [.mmap size plainFlags (-1) mem]
    (if mem == MAP_FAILED then NULL else mem, t2)
  else
    (if mem == MAP_FAILED then NULL else mem, t0)

/-- `AllocateLargePagesMemory` as compiled for a target. -/
def AllocateLargePagesMemory (t : Target) (os : OS) (huge_pages : Bool) (size : Nat) :
    Ptr × List Event :=
  match t with
  | .mingw32 => Windows.AllocateLargePagesMemory os size
  | .freebsd => Linux.AllocateLargePagesMemory true os huge_pages size
  | .linux => Linux.AllocateLargePagesMemory false os huge_pages size

/-- How a call of `AllocateMemory` ends: it returns a pointer, or the process
exits with a status. -/
inductive Outcome where
  | returned (mem : Ptr)
  | exited (status : Int)
  deriving DecidableEq, Repr

/-- `AllocateMemory`; `huge_pages` and `opt_debug` are the global flags. -/
def AllocateMemory (t : Target) (os : OS) (huge_pages opt_debug : Bool) (size : Nat) :
    Outcome × List Event :=
  let a := AllocateLargePagesMemory t os huge_pages size
  let mem := a.1
  let t0 := a.2
  if mem == NULL then
    let t1 := if opt_debug then
        t0 ++ [.applog .LOG_NOTICE "Using malloc as allocation method"]
      else t0
    let mem := os.malloc size
    let t2 := t1 ++ [.malloc size mem]
    if mem == NULL then
      (.exited 1, t2 ++ [.applog .LOG_ERR "Could not allocate any memory for thread"])
    else (.returned mem, t2)
  else
    (.returned mem, t0)

/-- The fatal log line of `AllocateMemory`. -/
def fatalLine : Event := .applog .LOG_ERR "Could not allocate any memory for thread"

/-- Unix target selected by the `__FreeBSD__` test. -/
def unixTarget (freebsd : Bool) : Target := if freebsd then .freebsd else .linux

/-! ## Concrete operating systems used as inputs -/

/-- Every mapping and the heap refuse. -/
def osAllFail : OS where
  mmap := fun _ _ _ => MAP_FAILED
  VirtualAlloc := fun _ _ => NULL
  GetLargePageMinimum := 2097152
  malloc := fun _ => NULL

/-- Large pages are supported but every large-page request is refused, while a
plain mapping of any size is served at `0x10000` and the heap at `0x20000`. -/
def osLargeRefused : OS where
  mmap := fun _ flags _ => if MapFlag.MAP_HUGETLB ∈ flags then MAP_FAILED else 0x10000
  VirtualAlloc := fun _ flags => if AllocType.MEM_LARGE_PAGES ∈ flags then NULL else 0x10000
  GetLargePageMinimum := 2097152
  malloc := fun _ => 0x20000

/-- Both mappings are refused, the heap serves at `0x20000`. -/
def osHeapOnly : OS where
  mmap := fun _ _ _ => MAP_FAILED
  VirtualAlloc := fun _ _ => NULL
  GetLargePageMinimum := 0
  malloc := fun _ => 0x20000

/-- A pseudo-file holding `v` that can be read and written without error. -/
def hpFile (v : Nat) : Linux.HpFile := ⟨v, true, false, true, false⟩

/-- Both pseudo-files readable and writable, holding `free` and `nr`. -/
def fsOf (free nr : Nat) : Linux.SysFs := ⟨hpFile free, hpFile nr⟩

/-- The file `free_hugepages` cannot be opened; `nr_hugepages` holds 10. -/
def fsUnreadable : Linux.SysFs := ⟨⟨0, false, false, false, false⟩, hpFile 10⟩

/-- The process token cannot be opened and the account query fails. -/
def winDenied : Windows.PrivilegeOS where
  enable := fun _ => ⟨false, true, true, 0⟩
  grant := ⟨false, 0, 0, 0, 0⟩

/-- The first enable fails in `AdjustTokenPrivileges`, the grant succeeds and
the second enable succeeds. -/
def winGrantedThenEnabled : Windows.PrivilegeOS where
  enable := fun n => if n = 0 then ⟨true, true, false, 0⟩ else ⟨true, true, true, 0⟩
  grant := ⟨true, 44, 0x30000, 0, 0⟩

/-! ## Allocation: shared lemmas -/

theorem fatalLine_not_mem_large (t : Target) (os : OS) (huge_pages : Bool) (size : Nat) :
    fatalLine ∉ (AllocateLargePagesMemory t os huge_pages size).2 := by
  cases t <;> cases huge_pages <;>
    simp only [AllocateLargePagesMemory, Windows.AllocateLargePagesMemory,
      Linux.AllocateLargePagesMemory, fatalLine] <;>
    split <;> simp

theorem large_requests_len (t : Target) (os : OS) (huge_pages : Bool) (size : Nat) :
    ∀ e ∈ (AllocateLargePagesMemory t os huge_pages size).2,
      e.isRequest = true → e.requestLen = some size := by
  cases t <;> cases huge_pages <;>
    simp only [AllocateLargePagesMemory, Windows.AllocateLargePagesMemory,
      Linux.AllocateLargePagesMemory] <;>
    split <;> simp [Event.isRequest, Event.requestLen]

theorem large_result_served (t : Target) (os : OS) (huge_pages : Bool) (size : Nat)
    (h : (AllocateLargePagesMemory t os huge_pages size).1 ≠ NULL) :
    ∃ e ∈ (AllocateLargePagesMemory t os huge_pages size).2,
      e.requestLen = some size ∧
      e.requestRes = some (AllocateLargePagesMemory t os huge_pages size).1 := by
  cases t <;> cases huge_pages <;>
    simp only [AllocateLargePagesMemory, Windows.AllocateLargePagesMemory,
      Linux.AllocateLargePagesMemory] at h ⊢ <;>
    split <;> simp_all [Event.requestLen, Event.requestRes]

theorem AllocateMemory_outcome (t : Target) (os : OS) (huge_pages opt_debug : Bool)
    (size : Nat) :
    (AllocateMemory t os huge_pages opt_debug size).1 =
      if (AllocateLargePagesMemory t os huge_pages size).1 = NULL then
        (if os.malloc size = NULL then .exited 1 else .returned (os.malloc size))
      else .returned (AllocateLargePagesMemory t os huge_pages size).1 := by
  by_cases h1 : (AllocateLargePagesMemory t os huge_pages size).1 = NULL <;>
    by_cases h2 : os.malloc size = NULL <;>
    simp [AllocateMemory, h1, h2]

theorem AllocateMemory_events (t : Target) (os : OS) (huge_pages opt_debug : Bool)
    (size : Nat) :
    (AllocateMemory t os huge_pages opt_debug size).2 =
      (AllocateLargePagesMemory t os huge_pages size).2 ++
        (if (AllocateLargePagesMemory t os huge_pages size).1 = NULL then
          (if opt_debug then [Event.applog .LOG_NOTICE "Using malloc as allocation method"]
            else []) ++
          [Event.malloc size (os.malloc size)] ++
          (if os.malloc size = NULL then [fatalLine] else [])
        else []) := by
  by_cases h1 : (AllocateLargePagesMemory t os huge_pages size).1 = NULL <;>
    by_cases h2 : os.malloc size = NULL <;>
    cases opt_debug <;>
    simp [AllocateMemory, h1, h2, fatalLine]

/-! ## Allocation: claims -/

/-- C1: `AllocateMemory` never hands a null region to its caller.  On every
target, for every size, both flag values and every answer of the OS and of
`malloc`, the call either returns a pointer different from `NULL` or exits
with status 1; it exits if and only if `AllocateLargePagesMemory` returned
`NULL` and `malloc` returned `NULL`; and when it exits, the line
`LOG_ERR "Could not allocate any memory for thread"` was logged exactly once,
as the last event before the exit. -/
theorem AllocateMemory_never_null (t : Target) (os : OS) (huge_pages opt_debug : Bool)
    (size : Nat) :
    ((∃ p, (AllocateMemory t os huge_pages opt_debug size).1 = .returned p ∧ p ≠ NULL) ∨
      (AllocateMemory t os huge_pages opt_debug size).1 = .exited 1) ∧
    ((∃ s, (AllocateMemory t os huge_pages opt_debug size).1 = .exited s) ↔
      ((AllocateLargePagesMemory t os huge_pages size).1 = NULL ∧ os.malloc size = NULL)) ∧
    ((∃ s, (AllocateMemory t os huge_pages opt_debug size).1 = .exited s) →
      (AllocateMemory t os huge_pages opt_debug size).1 = .exited 1 ∧
      (AllocateMemory t os huge_pages opt_debug size).2.getLast? = some fatalLine ∧
      (AllocateMemory t os huge_pages opt_debug size).2.count fatalLine = 1) := by
  have hcount : List.count fatalLine (AllocateLargePagesMemory t os huge_pages size).2 = 0 :=
    List.count_eq_zero_of_not_mem (fatalLine_not_mem_large t os huge_pages size)
  rw [AllocateMemory_outcome, AllocateMemory_events]
  by_cases h1 : (AllocateLargePagesMemory t os huge_pages size).1 = NULL <;>
    by_cases h2 : os.malloc size = NULL <;>
    cases opt_debug <;>
    simp [h1, h2, hcount, List.count_cons, List.count_append] <;>
    simp [fatalLine]

/-- Witness for C1: with every mapping and the heap refusing, the call exits
with status 1 after logging the fatal line once. -/
theorem AllocateMemory_never_null_witness :
    (AllocateMemory .linux osAllFail true true 2097152).1 = .exited 1 ∧
    (AllocateMemory .linux osAllFail true true 2097152).2.getLast? = some fatalLine ∧
    (AllocateMemory .linux osAllFail true true 2097152).2.count fatalLine = 1 :=
  (AllocateMemory_never_null .linux osAllFail true true 2097152).2.2 ⟨1, by rfl⟩

/-- C6: `AllocateMemory` preserves the exact byte count.  On every target and
for every size (0 included), every memory request in the trace (huge-page
mapping, plain mapping, `VirtualAlloc`, `malloc`) carries the length `size`,
and a returned pointer is the answer of one of these requests of length
`size`. -/
theorem AllocateMemory_exact_size (t : Target) (os : OS) (huge_pages opt_debug : Bool)
    (size : Nat) :
    (∀ e ∈ (AllocateMemory t os huge_pages opt_debug size).2,
      e.isRequest = true → e.requestLen = some size) ∧
    (∀ p, (AllocateMemory t os huge_pages opt_debug size).1 = .returned p →
      ∃ e ∈ (AllocateMemory t os huge_pages opt_debug size).2,
        e.isRequest = true ∧ e.requestLen = some size ∧ e.requestRes = some p) := by
  have hlen := large_requests_len t os huge_pages size
  have hres := large_result_served t os huge_pages size
  rw [AllocateMemory_outcome, AllocateMemory_events]
  refine ⟨?_, ?_⟩
  · intro e he
    rcases List.mem_append.1 he with he | he
    · exact hlen e he
    · intro hreq
      split at he
      · have hsub : e ∈ [Event.applog .LOG_NOTICE "Using malloc as allocation method",
            Event.malloc size (os.malloc size), fatalLine] := by
          cases opt_debug <;> by_cases h2 : os.malloc size = NULL <;>
            simp [h2] at he ⊢ <;> tauto
        simp only [List.mem_cons, List.mem_singleton, List.not_mem_nil, or_false] at hsub
        rcases hsub with rfl | rfl | rfl
        · simp [Event.isRequest] at hreq
        · simp [Event.requestLen]
        · simp [Event.isRequest, fatalLine] at hreq
      · simp at he
  · intro p hp
    by_cases h1 : (AllocateLargePagesMemory t os huge_pages size).1 = NULL
    · by_cases h2 : os.malloc size = NULL
      · simp [h1, h2] at hp
      · simp only [h1, h2, if_true, if_false, Outcome.returned.injEq] at hp
        refine ⟨.malloc size (os.malloc size), ?_, ?_⟩
        · simp [h1]
        · simp [Event.isRequest, Event.requestLen, Event.requestRes, hp]
    · simp only [h1, if_false, Outcome.returned.injEq] at hp
      obtain ⟨e, he, hl, hr⟩ := hres h1
      refine ⟨e, List.mem_append_left _ he, ?_, hl, ?_⟩
      · cases e <;> simp_all [Event.isRequest, Event.requestLen]
      · rw [hr, hp]

/-- Witness for C6: a request of 0 bytes served by the heap. -/
theorem AllocateMemory_exact_size_witness :
    ∃ e ∈ (AllocateMemory .linux osHeapOnly false false 0).2,
      e.isRequest = true ∧ e.requestLen = some 0 ∧ e.requestRes = some 0x20000 :=
  (AllocateMemory_exact_size .linux osHeapOnly false false 0).2 0x20000 (by rfl)

/-- C2, counterexample: on Windows with large pages supported
(`GetLargePageMinimum() = 2097152 > 0`) and the large-page `VirtualAlloc`
refused, `AllocateLargePagesMemory` returns `NULL` having made the large-page
request only; no plain request follows, although one would have been served. -/
theorem AllocateLargePagesMemory_windows_no_retry :
    0 < osLargeRefused.GetLargePageMinimum ∧
    (AllocateLargePagesMemory .mingw32 osLargeRefused false 2097152).1 = NULL ∧
    (AllocateLargePagesMemory .mingw32 osLargeRefused false 2097152).2.filter Event.isRequest =
      [.VirtualAlloc 2097152 [.MEM_COMMIT, .MEM_RESERVE, .MEM_LARGE_PAGES] NULL] ∧
    osLargeRefused.VirtualAlloc 2097152 [.MEM_COMMIT, .MEM_RESERVE] ≠ NULL := by
  decide

/-- C2, amended: on Linux and FreeBSD, whenever the huge-page `mmap` fails a
plain anonymous `mmap` of the same size is the next and last request, and
(a successful `mmap` never being at address 0) `NULL` is returned only if
both requests failed.  On Windows exactly one `VirtualAlloc` request of the
given size is made, with `MEM_LARGE_PAGES` exactly when
`GetLargePageMinimum() > 0`, and its answer is returned without any retry. -/
theorem AllocateLargePagesMemory_retry :
    (∀ (freebsd : Bool) (os : OS) (huge_pages : Bool) (size : Nat),
      (os.mmap size (hugeFlags freebsd) (hugeFd freebsd) = MAP_FAILED →
        (Linux.AllocateLargePagesMemory freebsd os huge_pages size).2.filter Event.isRequest =
          [.mmap size (hugeFlags freebsd) (hugeFd freebsd) MAP_FAILED,
           .mmap size plainFlags (-1) (os.mmap size plainFlags (-1))]) ∧
      (os.mmap size (hugeFlags freebsd) (hugeFd freebsd) ≠ NULL →
        os.mmap size plainFlags (-1) ≠ NULL →
        (Linux.AllocateLargePagesMemory freebsd os huge_pages size).1 = NULL →
        os.mmap size (hugeFlags freebsd) (hugeFd freebsd) = MAP_FAILED ∧
        os.mmap size plainFlags (-1) = MAP_FAILED)) ∧
    (∀ (os : OS) (size : Nat),
      (Windows.AllocateLargePagesMemory os size).2.filter Event.isRequest =
        [.VirtualAlloc size
          (if 0 < os.GetLargePageMinimum then [.MEM_COMMIT, .MEM_RESERVE, .MEM_LARGE_PAGES]
            else [.MEM_COMMIT, .MEM_RESERVE])
          (Windows.AllocateLargePagesMemory os size).1] ∧
      (Windows.AllocateLargePagesMemory os size).1 =
        os.VirtualAlloc size
          (if 0 < os.GetLargePageMinimum then [.MEM_COMMIT, .MEM_RESERVE, .MEM_LARGE_PAGES]
            else [.MEM_COMMIT, .MEM_RESERVE])) := by
  refine ⟨?_, ?_⟩
  · intro freebsd os huge_pages size
    refine ⟨?_, ?_⟩
    · intro h
      cases huge_pages <;>
        simp [Linux.AllocateLargePagesMemory, h, Event.isRequest, List.filter]
    · intro h0 h1 hnull
      by_cases h : os.mmap size (hugeFlags freebsd) (hugeFd freebsd) = MAP_FAILED
      · by_cases h2 : os.mmap size plainFlags (-1) = MAP_FAILED
        · exact ⟨h, h2⟩
        · simp [Linux.AllocateLargePagesMemory, h, h2] at hnull
          exact absurd hnull h1
      · simp [Linux.AllocateLargePagesMemory, h] at hnull
        exact absurd hnull h0
  · intro os size
    by_cases h : 0 < os.GetLargePageMinimum <;>
      simp [Windows.AllocateLargePagesMemory, h, Event.isRequest, List.filter]

/-- Witness for C2 (amended): on Linux, with both mappings refused, `NULL` is
returned and both requests failed. -/
theorem AllocateLargePagesMemory_retry_witness :
    osAllFail.mmap 4096 (hugeFlags false) (hugeFd false) = MAP_FAILED ∧
    osAllFail.mmap 4096 plainFlags (-1) = MAP_FAILED :=
  (AllocateLargePagesMemory_retry.1 false osAllFail true 4096).2
    (by decide) (by decide) (by decide)

/-- C9, counterexample: on Linux with `huge_pages` set, size 2097152, the
huge-page mapping refused and the plain mapping served at `0x10000`,
`AllocateMemory` returns the plain mapping but an error-severity line is in
its trace. -/
theorem AllocateMemory_scenario_C_logs_error :
    osLargeRefused.mmap 2097152 (hugeFlags false) (hugeFd false) = MAP_FAILED ∧
    osLargeRefused.mmap 2097152 plainFlags (-1) = 0x10000 ∧
    (AllocateMemory .linux osLargeRefused true false 2097152).1 = .returned 0x10000 ∧
    (AllocateMemory .linux osLargeRefused true false 2097152).2.filter (Event.isLog .LOG_ERR) =
      [.applog .LOG_ERR "Huge Pages allocation failed. Run with root privileges."] := by
  decide

/-- C9, amended: Scenario C on Linux and FreeBSD, for every size and both
values of `huge_pages` and `opt_debug`: when the huge-page mapping fails and
the plain mapping succeeds, `AllocateMemory` returns the plain-mapped region
without calling `malloc`; no error-severity line is logged when `huge_pages`
is off, and exactly one, "Huge Pages allocation failed. Run with root
privileges.", when it is on. -/
theorem AllocateMemory_scenario_C (freebsd : Bool) (os : OS) (huge_pages opt_debug : Bool)
    (size : Nat)
    (hhuge : os.mmap size (hugeFlags freebsd) (hugeFd freebsd) = MAP_FAILED)
    (hplain : os.mmap size plainFlags (-1) ≠ MAP_FAILED)
    (hnonnull : os.mmap size plainFlags (-1) ≠ NULL) :
    (AllocateMemory (unixTarget freebsd) os huge_pages opt_debug size).1 =
      .returned (os.mmap size plainFlags (-1)) ∧
    (∀ e ∈ (AllocateMemory (unixTarget freebsd) os huge_pages opt_debug size).2,
      ∀ n r, e ≠ .malloc n r) ∧
    (AllocateMemory (unixTarget freebsd) os huge_pages opt_debug size).2.filter
        (Event.isLog .LOG_ERR) =
      (if huge_pages then
        [.applog .LOG_ERR "Huge Pages allocation failed. Run with root privileges."]
       else []) := by
  cases freebsd <;> cases huge_pages <;>
    simp_all [unixTarget, AllocateMemory, AllocateLargePagesMemory,
      Linux.AllocateLargePagesMemory, Event.isLog, List.filter]

/-- Witness for C9 (amended): size 2097152 on Linux with `huge_pages` off. -/
theorem AllocateMemory_scenario_C_witness :
    (AllocateMemory (unixTarget false) osLargeRefused false false 2097152).1 =
      .returned (osLargeRefused.mmap 2097152 plainFlags (-1)) ∧
    (∀ e ∈ (AllocateMemory (unixTarget false) osLargeRefused false false 2097152).2,
      ∀ n r, e ≠ .malloc n r) ∧
    (AllocateMemory (unixTarget false) osLargeRefused false false 2097152).2.filter
        (Event.isLog .LOG_ERR) =
      (if false then
        [.applog .LOG_ERR "Huge Pages allocation failed. Run with root privileges."]
       else []) :=
  AllocateMemory_scenario_C false osLargeRefused false false 2097152
    (by decide) (by decide) (by decide)

/-- C10: Scenario D on Linux and FreeBSD, for every size and both values of
`huge_pages`: when both mapping requests fail and `malloc` succeeds,
`AllocateMemory` returns the region obtained from `malloc`, and the number of
notice-severity lines in the trace is one if `opt_debug` is on and zero if it
is off. -/
theorem AllocateMemory_scenario_D (freebsd : Bool) (os : OS) (huge_pages opt_debug : Bool)
    (size : Nat)
    (hhuge : os.mmap size (hugeFlags freebsd) (hugeFd freebsd) = MAP_FAILED)
    (hplain : os.mmap size plainFlags (-1) = MAP_FAILED)
    (hheap : os.malloc size ≠ NULL) :
    (AllocateMemory (unixTarget freebsd) os huge_pages opt_debug size).1 =
      .returned (os.malloc size) ∧
    ((AllocateMemory (unixTarget freebsd) os huge_pages opt_debug size).2.filter
        (Event.isLog .LOG_NOTICE)).length = (if opt_debug then 1 else 0) := by
  cases freebsd <;> cases huge_pages <;> cases opt_debug <;>
    simp_all [unixTarget, AllocateMemory, AllocateLargePagesMemory,
      Linux.AllocateLargePagesMemory, Event.isLog, List.filter]

/-- Witness for C10: the debug flag on, both mappings refused, heap serving. -/
theorem AllocateMemory_scenario_D_witness :
    (AllocateMemory (unixTarget false) osHeapOnly true true 2097152).1 =
      .returned (osHeapOnly.malloc 2097152) ∧
    ((AllocateMemory (unixTarget false) osHeapOnly true true 2097152).2.filter
        (Event.isLog .LOG_NOTICE)).length = (if true then 1 else 0) :=
  AllocateMemory_scenario_D false osHeapOnly true true 2097152
    (by decide) (by decide) (by decide)


/-! ## Provisioning: shared lemmas -/

theorem toInt32_of_lt (v : Nat) (h : v < 2 ^ 31) : toInt32 v = (v : Int) := by
  unfold toInt32
  split <;> omega

theorem toInt32_pos_le (v : Nat) (h : 0 < toInt32 v) :
    toInt32 v ≤ (v : Int) ∧ (v : Int) - toInt32 v = ((v / 2 ^ 32 * 2 ^ 32 : Nat) : Int) ∧
      toInt32 v < 2 ^ 31 := by
  unfold toInt32 at h ⊢
  split at h <;> rename_i hlt
  · simp only [hlt, if_true]
    omega
  · omega

theorem read_hp_readable (fs : Linux.SysFs) (p : HpPath)
    (hopen : (fs.file p).rOpen = true) (herr : (fs.file p).rErr = false)
    (hint : (fs.file p).value < 2 ^ 31) :
    Linux.read_hp fs p = ((fs.file p).value : Int) := by
  have h64 : (fs.file p).value % 2 ^ 64 = (fs.file p).value := Nat.mod_eq_of_lt (by omega)
  unfold Linux.read_hp
  simp only [hopen, herr, Bool.not_true, Bool.false_eq_true, if_false]
  rw [h64]
  exact toInt32_of_lt _ hint

theorem InitHugePages_of_enough (fs : Linux.SysFs) (threads : Nat)
    (hopen : fs.free_hugepages.rOpen = true) (herr : fs.free_hugepages.rErr = false)
    (hge : threads ≤ fs.free_hugepages.value) (hint : fs.free_hugepages.value < 2 ^ 31) :
    Linux.InitHugePages fs threads =
      ⟨true, fs, [.read_hp .free_hugepages (fs.free_hugepages.value : Int)]⟩ := by
  have hr : Linux.read_hp fs .free_hugepages = (fs.free_hugepages.value : Int) :=
    read_hp_readable fs .free_hugepages hopen herr hint
  have ht : toInt32 threads = (threads : Int) := toInt32_of_lt threads (by omega)
  have h1 : ¬ ((fs.free_hugepages.value : Int) < 0) := by omega
  have h2 : (fs.free_hugepages.value : Int) ≥ (threads : Int) := by omega
  unfold Linux.InitHugePages
  simp only [hr, ht, h1, h2, if_true, if_false]

/-! ## Provisioning: claims -/

/-- C3, counterexample: `free_hugepages` is readable and holds 4294967296,
which is at least the thread count 1, yet `InitHugePages` reads `free` as
`(int)4294967296 = 0`, goes on to read `nr_hugepages` (10) and writes 11. -/
theorem InitHugePages_large_free_writes :
    (fsOf 4294967296 10).free_hugepages.rOpen = true ∧
    (fsOf 4294967296 10).free_hugepages.rErr = false ∧
    1 ≤ (fsOf 4294967296 10).free_hugepages.value ∧
    Linux.InitHugePages (fsOf 4294967296 10) 1 =
      ⟨true, fsOf 4294967296 11,
        [.read_hp .free_hugepages 0, .read_hp .nr_hugepages 10,
         .write_hp .nr_hugepages 11 true]⟩ := by
  decide

/-- C3, amended: on the kernel-counter family, for every thread count and
every state in which `free_hugepages` is readable and its value is at least
the thread count and below 2^31 (so that it survives the conversion to
`int`), `InitHugePages` returns true, neither reads nor writes
`nr_hugepages`, calls `write_hp` not at all and leaves the files unchanged;
a second call with the same thread count in the state it leaves writes
nothing either. -/
theorem InitHugePages_enough_free (fs : Linux.SysFs) (threads : Nat)
    (hopen : fs.free_hugepages.rOpen = true) (herr : fs.free_hugepages.rErr = false)
    (hge : threads ≤ fs.free_hugepages.value) (hint : fs.free_hugepages.value < 2 ^ 31) :
    (Linux.InitHugePages fs threads).ret = true ∧
    (∀ e ∈ (Linux.InitHugePages fs threads).events, e.touches .nr_hugepages = false) ∧
    (Linux.InitHugePages fs threads).events.filter Event.isWrite = [] ∧
    (Linux.InitHugePages fs threads).fs = fs ∧
    (Linux.InitHugePages (Linux.InitHugePages fs threads).fs threads).events.filter
      Event.isWrite = [] := by
  have h := InitHugePages_of_enough fs threads hopen herr hge hint
  simp [h, Event.touches, Event.isWrite, List.filter]

/-- Witness for C3 (amended): `free_hugepages = 4`, `threads = 4`. -/
theorem InitHugePages_enough_free_witness :
    (Linux.InitHugePages (fsOf 4 10) 4).ret = true ∧
    (∀ e ∈ (Linux.InitHugePages (fsOf 4 10) 4).events, e.touches .nr_hugepages = false) ∧
    (Linux.InitHugePages (fsOf 4 10) 4).events.filter Event.isWrite = [] ∧
    (Linux.InitHugePages (fsOf 4 10) 4).fs = fsOf 4 10 ∧
    (Linux.InitHugePages (Linux.InitHugePages (fsOf 4 10) 4).fs 4).events.filter
      Event.isWrite = [] :=
  InitHugePages_enough_free (fsOf 4 10) 4 (by decide) (by decide) (by decide) (by decide)

/-- C4, counterexample: with the positive thread count 4294967296 and
`free_hugepages = 0 < 4294967296`, `InitHugePages` compares 0 with
`(int)4294967296 = 0`, returns true and writes nothing, where the claim has
it write `10 + 4294967296 - 0`. -/
theorem InitHugePages_large_threads_no_write :
    0 < 4294967296 ∧
    (fsOf 0 10).free_hugepages.value < 4294967296 ∧
    Linux.InitHugePages (fsOf 0 10) 4294967296 =
      ⟨true, fsOf 0 10, [.read_hp .free_hugepages 0]⟩ := by
  decide

/-- C4, amended: on the kernel-counter family, for every thread count below
2^31 and every readable `free_hugepages` value `free < threads`, with
`current_total` the value of `nr_hugepages` when it is read without error
(then required to be below 2^31) and 0 otherwise, `InitHugePages` calls
`write_hp` exactly once, on `nr_hugepages` with the value
`current_total + threads - free`; it returns true exactly when that write
succeeds (the file opens for writing and no stream error is reported); and
when the file opens for writing it holds that value afterwards. -/
theorem InitHugePages_raises (fs : Linux.SysFs) (threads : Nat)
    (hthreads : threads < 2 ^ 31)
    (hopen : fs.free_hugepages.rOpen = true) (herr : fs.free_hugepages.rErr = false)
    (hlt : fs.free_hugepages.value < threads)
    (hnr : fs.nr_hugepages.rOpen = true → fs.nr_hugepages.rErr = false →
      fs.nr_hugepages.value < 2 ^ 31) :
    (Linux.InitHugePages fs threads).events.filter Event.isWrite =
      [.write_hp .nr_hugepages
        ((if fs.nr_hugepages.rOpen && !fs.nr_hugepages.rErr then fs.nr_hugepages.value else 0)
          + threads - fs.free_hugepages.value)
        (fs.nr_hugepages.wOpen && !fs.nr_hugepages.wErr)] ∧
    (Linux.InitHugePages fs threads).ret =
      (fs.nr_hugepages.wOpen && !fs.nr_hugepages.wErr) ∧
    (fs.nr_hugepages.wOpen = true →
      (Linux.InitHugePages fs threads).fs.nr_hugepages.value =
        (if fs.nr_hugepages.rOpen && !fs.nr_hugepages.rErr then fs.nr_hugepages.value else 0)
          + threads - fs.free_hugepages.value) := by
  have hr : Linux.read_hp fs .free_hugepages = (fs.free_hugepages.value : Int) :=
    read_hp_readable fs .free_hugepages hopen herr (by simp only [Linux.SysFs.file]; omega)
  have ht : toInt32 threads = (threads : Int) := toInt32_of_lt threads hthreads
  have h1 : ¬ ((fs.free_hugepages.value : Int) < 0) := by omega
  have h2 : ¬ ((fs.free_hugepages.value : Int) ≥ (threads : Int)) := by omega
  have hmod : threads % 2 ^ 64 = threads := Nat.mod_eq_of_lt (by omega)
  have hset : (if Linux.read_hp fs .nr_hugepages < 0 then (0 : Int)
        else Linux.read_hp fs .nr_hugepages) =
      (((if fs.nr_hugepages.rOpen && !fs.nr_hugepages.rErr then fs.nr_hugepages.value else 0 : Nat)
        : Nat) : Int) := by
    cases ho : fs.nr_hugepages.rOpen <;> cases he : fs.nr_hugepages.rErr
    · simp [Linux.read_hp, Linux.SysFs.file, ho]
    · simp [Linux.read_hp, Linux.SysFs.file, ho]
    · have := read_hp_readable fs .nr_hugepages ho he (hnr ho he)
      simp only [Linux.SysFs.file] at this
      simp [this]
    · simp [Linux.read_hp, Linux.SysFs.file, ho, he]
  generalize hc : (if fs.nr_hugepages.rOpen && !fs.nr_hugepages.rErr
    then fs.nr_hugepages.value else 0 : Nat) = cur at hset ⊢
  have hcur : cur < 2 ^ 31 := by
    subst hc
    split
    · rename_i h
      simp only [Bool.and_eq_true, Bool.not_eq_true'] at h
      exact hnr h.1 h.2
    · omega
  have hval : toSizeT ((cur : Int) + (threads : Int) - (fs.free_hugepages.value : Int)) =
      cur + threads - fs.free_hugepages.value := by
    unfold toSizeT
    omega
  have hv64 : (cur + threads - fs.free_hugepages.value) % 2 ^ 64 =
      cur + threads - fs.free_hugepages.value := Nat.mod_eq_of_lt (by omega)
  unfold Linux.InitHugePages
  simp only [hr, ht, h1, h2, if_false, hmod, hset, hval]
  cases hw : fs.nr_hugepages.wOpen <;> cases hwe : fs.nr_hugepages.wErr <;>
    simp [Linux.write_hp, Linux.SysFs.file, Linux.SysFs.store, hw, hwe, hv64,
      Event.isWrite, List.filter]
  all_goals omega


/-- Witness for C4 (amended): `free = 2`, `threads = 5`, `nr = 10` writes 13
and returns true. -/
theorem InitHugePages_raises_witness :
    (Linux.InitHugePages (fsOf 2 10) 5).events.filter Event.isWrite =
      [.write_hp .nr_hugepages 13 true] ∧
    (Linux.InitHugePages (fsOf 2 10) 5).ret = true ∧
    (Linux.InitHugePages (fsOf 2 10) 5).fs.nr_hugepages.value = 13 :=
  ⟨(InitHugePages_raises (fsOf 2 10) 5 (by decide) (by decide) (by decide) (by decide)
      (fun _ _ => by decide)).1,
   (InitHugePages_raises (fsOf 2 10) 5 (by decide) (by decide) (by decide) (by decide)
      (fun _ _ => by decide)).2.1,
   (InitHugePages_raises (fsOf 2 10) 5 (by decide) (by decide) (by decide) (by decide)
      (fun _ _ => by decide)).2.2 (by decide)⟩

/-- C5, counterexample: `nr_hugepages` holds 2147483648, which `read_hp`
converts to the negative `int` -2147483648 and `InitHugePages` then treats
as 0; with `free_hugepages = 0` and one thread it writes 1, so the stored
reservation drops from 2147483648 to 1. -/
theorem InitHugePages_decreases_large_nr :
    Linux.InitHugePages (fsOf 0 2147483648) 1 =
      ⟨true, fsOf 0 1,
        [.read_hp .free_hugepages 0, .read_hp .nr_hugepages (-2147483648),
         .write_hp .nr_hugepages 1 true]⟩ ∧
    (Linux.InitHugePages (fsOf 0 2147483648) 1).fs.nr_hugepages.value <
      (fsOf 0 2147483648).nr_hugepages.value := by
  decide

/-- C5, amended: `InitHugePages` never decreases the reservation counter
when it can read it as a value below 2^31: for every thread count (any
`size_t`), every content and state of `free_hugepages`, and every state in
which `nr_hugepages` is read without error and holds less than 2^31, the
value stored in `nr_hugepages` after the call is at least the value before. -/
theorem InitHugePages_never_decreases (fs : Linux.SysFs) (threads : Nat)
    (hthreads : threads < 2 ^ 64)
    (hopen : fs.nr_hugepages.rOpen = true) (herr : fs.nr_hugepages.rErr = false)
    (hint : fs.nr_hugepages.value < 2 ^ 31) :
    fs.nr_hugepages.value ≤ (Linux.InitHugePages fs threads).fs.nr_hugepages.value := by
  have hnr : Linux.read_hp fs .nr_hugepages = (fs.nr_hugepages.value : Int) :=
    read_hp_readable fs .nr_hugepages hopen herr hint
  have hmod : threads % 2 ^ 64 = threads := Nat.mod_eq_of_lt hthreads
  have hn0 : ¬ ((fs.nr_hugepages.value : Int) < 0) := by omega
  unfold Linux.InitHugePages
  simp only [hnr, hn0, if_false, hmod]
  split
  · exact le_refl _
  · split
    · exact le_refl _
    · rename_i h1 h2
      have ha : 0 ≤ Linux.read_hp fs .free_hugepages := by omega
      have hpos : 0 < toInt32 threads := by omega
      obtain ⟨hle, hdiv, hlt⟩ := toInt32_pos_le threads hpos
      generalize Linux.read_hp fs .free_hugepages = a at *
      generalize toInt32 threads = c at *
      have hval : toSizeT ((fs.nr_hugepages.value : Int) + (threads : Int) - a) =
          ((fs.nr_hugepages.value : Int) + (threads : Int) - a).toNat := by
        unfold toSizeT
        have hq : threads / 2 ^ 32 < 2 ^ 32 := by omega
        rw [Int.emod_eq_of_lt (by omega) (by omega)]
      rw [hval]
      unfold Linux.write_hp
      cases hw : fs.nr_hugepages.wOpen <;> cases hwe : fs.nr_hugepages.wErr <;>
        simp [Linux.SysFs.file, Linux.SysFs.store, hw, hwe]
      all_goals omega


/-- Witness for C5 (amended): from 10 the counter goes to 13. -/
theorem InitHugePages_never_decreases_witness :
    (fsOf 2 10).nr_hugepages.value ≤
      (Linux.InitHugePages (fsOf 2 10) 5).fs.nr_hugepages.value :=
  InitHugePages_never_decreases (fsOf 2 10) 5 (by decide) (by decide) (by decide) (by decide)

theorem SetLockPagesPrivilege_logs (o : Windows.EnableOutcome) :
    ((Windows.SetLockPagesPrivilege o).1 = true ∧ (Windows.SetLockPagesPrivilege o).2 = []) ∨
    ((Windows.SetLockPagesPrivilege o).1 = false ∧
      ∃ msg, (Windows.SetLockPagesPrivilege o).2 = [.applog .LOG_NOTICE msg]) := by
  unfold Windows.SetLockPagesPrivilege
  split
  · exact Or.inr ⟨rfl, _, rfl⟩
  · split
    · exact Or.inr ⟨rfl, _, rfl⟩
    · split
      · exact Or.inr ⟨rfl, _, rfl⟩
      · exact Or.inl ⟨rfl, rfl⟩

theorem ObtainLockPagesPrivilege_logs (o : Windows.GrantOutcome) :
    ∀ e ∈ (Windows.ObtainLockPagesPrivilege o).2, ∃ msg, e = .applog .LOG_NOTICE msg := by
  unfold Windows.ObtainLockPagesPrivilege
  simp only []
  generalize (if o.OpenProcessToken then (if o.size != 0 then o.LocalAlloc else NULL)
    else NULL) = user
  split_ifs <;> simp

theorem filterMap_enableResult_logs (l : List Event)
    (h : ∀ e ∈ l, ∃ msg, e = .applog .LOG_NOTICE msg) :
    l.filterMap Event.enableResult = [] ∧ l.countP Event.isEnable = 0 ∧
      l.countP Event.isGrant = 0 := by
  induction l with
  | nil => simp
  | cons a l ih =>
    obtain ⟨msg, rfl⟩ := h _ (List.mem_cons_self _ _)
    have := ih (fun e he => h e (List.mem_cons_of_mem _ he))
    simp [Event.enableResult, Event.isEnable, Event.isGrant, this]

/-- C8: on the privilege-token family, `InitHugePages` returns true if and
only if the last `SetLockPagesPrivilege` call it made succeeded.  When the
first enable succeeds it returns true with one enable call and no call of
`ObtainLockPagesPrivilege` (the grant); otherwise it calls the grant exactly
once and enables a second time exactly when the grant succeeded; there are
never more than two enable calls and one grant call; and the result and the
trace do not depend on `threads`. -/
theorem InitHugePages_windows_protocol (os : Windows.PrivilegeOS) (threads : Nat) :
    ((Windows.InitHugePages os threads).1 = true ↔
      lastEnable (Windows.InitHugePages os threads).2 = some true) ∧
    ((Windows.SetLockPagesPrivilege (os.enable 0)).1 = true →
      (Windows.InitHugePages os threads).1 = true ∧
      (Windows.InitHugePages os threads).2.countP Event.isGrant = 0 ∧
      (Windows.InitHugePages os threads).2.countP Event.isEnable = 1) ∧
    ((Windows.SetLockPagesPrivilege (os.enable 0)).1 = false →
      (Windows.InitHugePages os threads).2.countP Event.isGrant = 1 ∧
      (Windows.InitHugePages os threads).2.countP Event.isEnable =
        (if (Windows.ObtainLockPagesPrivilege os.grant).1 then 2 else 1)) ∧
    (Windows.InitHugePages os threads).2.countP Event.isEnable ≤ 2 ∧
    (Windows.InitHugePages os threads).2.countP Event.isGrant ≤ 1 ∧
    (∀ threads2, Windows.InitHugePages os threads2 = Windows.InitHugePages os threads) := by
  have hg := filterMap_enableResult_logs _ (ObtainLockPagesPrivilege_logs os.grant)
  have hs : ∀ o, ((Windows.SetLockPagesPrivilege o).2.filterMap Event.enableResult = [] ∧
      (Windows.SetLockPagesPrivilege o).2.countP Event.isEnable = 0 ∧
      (Windows.SetLockPagesPrivilege o).2.countP Event.isGrant = 0) := by
    intro o
    apply filterMap_enableResult_logs
    rcases SetLockPagesPrivilege_logs o with ⟨_, h⟩ | ⟨_, msg, h⟩ <;> simp [h]
  have h0 := hs (os.enable 0)
  have h1 := hs (os.enable 1)
  obtain ⟨g1, g2, g3⟩ := hg
  obtain ⟨a1, a2, a3⟩ := h0
  obtain ⟨b1, b2, b3⟩ := h1
  cases hs1 : (Windows.SetLockPagesPrivilege (os.enable 0)).1 <;>
    cases hgr : (Windows.ObtainLockPagesPrivilege os.grant).1 <;>
    cases hs2 : (Windows.SetLockPagesPrivilege (os.enable 1)).1 <;>
    simp [Windows.InitHugePages, Windows.TrySetLockPagesPrivilege, lastEnable, hs1, hgr, hs2,
      List.filterMap_append, List.countP_append, g1, g2, g3, a1, a2, a3, b1, b2, b3,
      Event.enableResult, Event.isEnable, Event.isGrant, List.countP_cons]

/-- Witness for C8: first enable fails, the grant succeeds, a second enable
is made and is the last one. -/
theorem InitHugePages_windows_protocol_witness :
    (Windows.InitHugePages winGrantedThenEnabled 4).2.countP Event.isGrant = 1 ∧
    (Windows.InitHugePages winGrantedThenEnabled 4).2.countP Event.isEnable =
      (if (Windows.ObtainLockPagesPrivilege winGrantedThenEnabled.grant).1 then 2 else 1) :=
  (InitHugePages_windows_protocol winGrantedThenEnabled 4).2.2.1 (by decide)

/-- C7, counterexample: on the Linux variant with `free_hugepages` not
openable, `InitHugePages` returns false and its trace holds the failed read
only: no line of notice or warning severity, nor any other, was logged. -/
theorem InitHugePages_linux_silent_failure :
    Linux.InitHugePages fsUnreadable 4 =
      ⟨false, fsUnreadable, [.read_hp .free_hugepages (-1)]⟩ ∧
    (Linux.InitHugePages fsUnreadable 4).events.filter Event.isAdvisoryLog = [] := by
  decide

/-- C7, amended: provisioning failures are advisory on both families (the
call returns a boolean, it never exits), and on the Windows variant they are
always logged: whenever `InitHugePages` returns false at least one
`LOG_NOTICE` line was logged during the call.  The Linux variant logs nothing
on any path. -/
theorem InitHugePages_failure_logging :
    (∀ (os : Windows.PrivilegeOS) (threads : Nat),
      (Windows.InitHugePages os threads).1 = false →
      ∃ e ∈ (Windows.InitHugePages os threads).2, e.isLog .LOG_NOTICE = true) ∧
    (∀ (fs : Linux.SysFs) (threads : Nat),
      ∀ e ∈ (Linux.InitHugePages fs threads).events, ∀ sev msg, e ≠ .applog sev msg) := by
  refine ⟨?_, ?_⟩
  · intro os threads h
    rcases SetLockPagesPrivilege_logs (os.enable 0) with ⟨h1, _⟩ | ⟨h1, msg, h2⟩
    · simp [Windows.InitHugePages, Windows.TrySetLockPagesPrivilege, h1] at h
    · refine ⟨.applog .LOG_NOTICE msg, ?_, by simp [Event.isLog]⟩
      unfold Windows.InitHugePages Windows.TrySetLockPagesPrivilege
      simp only [h1, h2]
      cases (Windows.ObtainLockPagesPrivilege os.grant).1 <;> simp
  · intro fs threads e he sev msg
    unfold Linux.InitHugePages at he
    simp only [] at he
    split at he
    · simp at he; simp [he]
    · split at he
      · simp at he; simp [he]
      · simp at he
        rcases he with he | he | he <;> simp [he]

/-- Witness for C7 (amended): the Windows variant with the token refused. -/
theorem InitHugePages_failure_logging_witness :
    ∃ e ∈ (Windows.InitHugePages winDenied 4).2, e.isLog .LOG_NOTICE = true :=
  InitHugePages_failure_logging.1 winDenied 4 (by decide)

end VirtualMemory
